import Mathlib

/-!
Shallow embedding of the earthquake-alert program (cmd/main.go).

The program polls a seismic-event feed, filters events by staleness,
hands them to a notifier over a channel, and dispatches formatted
push notifications.  Go float64 fields are modelled as Rat; machine
int64 timestamps cannot overflow at the values involved and are
modelled as Int; durations are in milliseconds.
-/

namespace EarthquakeAlert

/-- The Event record decoded from the feed response (struct Event in
cmd/main.go).  Field names follow the source. -/
structure Event where
  eventId : Int
  updates : Int
  latitude : Rat
  longitude : Rat
  depth : Rat
  epicenter : String
  startAt : Int
  updateAt : Int
  magnitude : Rat
  insideNet : Int
  sations : Int
deriving DecidableEq, Repr

/-- The feed response envelope (struct Response in cmd/main.go). -/
structure Response where
  code : Int
  message : String
  data : List Event
deriving DecidableEq, Repr

/-- The ways the query function in cmd/main.go can fail: request
construction (http.NewRequestWithContext), transport (client.Do),
body read (io.ReadAll), decode (json.Unmarshal). -/
inductive FetchError where
  | requestError
  | transportError
  | readError
  | decodeError
deriving DecidableEq, Repr

/-- The feed URL built by the query function in cmd/main.go. -/
def queryUrl (lastTs : Int) : String :=
  "https://mobile-new.chinaeew.cn/v1/earlywarnings?start_at=" ++ toString lastTs ++ "&updates=4"

/-- The staleness threshold 30*time.Minute of cmd/main.go, in
milliseconds. -/
def staleThresholdMs : Int := 30 * 60 * 1000

/-- One iteration of the ticker branch of the loop function in
cmd/main.go, at wall-clock time now (epoch ms) with cursor lastTs.
The fetch outcome stands for the result of the query call.  Returns
the new cursor and the event sent on the notification channel, if
any.  Mirrors the source exactly: on error the tick is skipped; on a
non-empty response the cursor is set to the first event's startAt
before the staleness check time.Since(tt) <= 30*time.Minute. -/
def tick (now lastTs : Int) (fetch : Except FetchError Response) : Int × Option Event :=
  match fetch with
  | .error _ => (lastTs, none)
  | .ok resp =>
    match resp.data with
    | [] => (lastTs, none)
    | e :: _ =>
      let lastTs := e.startAt
      if now - e.startAt ≤ staleThresholdMs then (lastTs, some e) else (lastTs, none)

/-- The loop function of cmd/main.go run over a finite schedule of
ticks, each with its wall-clock time and fetch outcome.  Returns the
final cursor and the sequence of events sent on the channel. -/
def runLoop (lastTs : Int) : List (Int × Except FetchError Response) → Int × List Event
  | [] => (lastTs, [])
  | (now, f) :: rest =>
    let r := tick now lastTs f
    let rec' := runLoop r.1 rest
    (rec'.1, r.2.toList ++ rec'.2)

/-- Left-pad a numeral string with zeros to width w, as the Go time
layout verbs 2006, 01, 02, 15, 04, 05 do. -/
def padZeros (w : Nat) (s : String) : String :=
  if s.length ≥ w then s else String.mk (List.replicate (w - s.length) '0') ++ s

/-- Convert a day count since 1970-01-01 to a (year, month, day)
civil date, proleptic Gregorian, as Go's time package computes for
Format. -/
def civilFromDays (z : Int) : Int × Int × Int :=
  let z := z + 719468
  let era := z.fdiv 146097
  let doe := (z.fmod 146097).toNat
  let yoe := (doe - doe / 1460 + doe / 36524 - doe / 146096) / 365
  let doy := doe - (365 * yoe + yoe / 4 - yoe / 100)
  let mp := (5 * doy + 2) / 153
  let d := doy - (153 * mp + 2) / 5 + 1
  let m : Int := (mp : Int) + (if mp < 10 then 3 else -9)
  let y : Int := (yoe : Int) + era * 400 + (if m ≤ 2 then 1 else 0)
  (y, m, d)

/-- Render an epoch-millisecond instant in the Asia/Shanghai zone
with Go layout time.DateTime (2006-01-02 15:04:05).  Asia/Shanghai
is a fixed UTC+8 offset in the era the program runs in (tzdata has
no DST there since 1991), so time.LoadLocation plus In is modelled
as adding the 8-hour offset. -/
def shanghaiDateTime (ms : Int) : String :=
  let sec := ms.fdiv 1000 + 8 * 3600
  let days := sec.fdiv 86400
  let sod := (sec.fmod 86400).toNat
  let ymd := civilFromDays days
  padZeros 4 (toString ymd.1) ++ "-" ++ padZeros 2 (toString ymd.2.1) ++ "-" ++
    padZeros 2 (toString ymd.2.2) ++ " " ++ padZeros 2 (toString (sod / 3600)) ++ ":" ++
    padZeros 2 (toString (sod % 3600 / 60)) ++ ":" ++ padZeros 2 (toString (sod % 60))

/-- Round a rational to the nearest integer, ties to even, the
rounding Go's strconv uses when formatting a float at a fixed
precision. -/
def roundHalfEven (q : Rat) : Int :=
  let f := ⌊q⌋
  let r := q - (f : Rat)
  if r < 1 / 2 then f
  else if 1 / 2 < r then f + 1
  else if f % 2 = 0 then f else f + 1

/-- Fixed-point decimal rendering with prec digits after the point,
modelling Go's %f verbs (%.1f with prec 1, %f with the default
prec 6) on the rational value of the float. -/
def fmtFixed (prec : Nat) (q : Rat) : String :=
  let scaled := roundHalfEven (q * ((10 : Rat) ^ prec))
  let sign := if scaled < 0 then "-" else ""
  let a := scaled.natAbs
  if prec = 0 then sign ++ toString a
  else sign ++ toString (a / 10 ^ prec) ++ "." ++ padZeros prec (toString (a % 10 ^ prec))

/-- The notification title built in the notification function of
cmd/main.go: Sprintf "%s 有%.1f级地震发生了" of the event start time in
Asia/Shanghai and the magnitude. -/
def notificationTitle (e : Event) : String :=
  shanghaiDateTime e.startAt ++ " 有" ++ fmtFixed 1 e.magnitude ++ "级地震发生了"

/-- The notification body built in the notification function of
cmd/main.go: Sprintf "地点:%s,东经:%f°,北纬:%f°,地震深度:%.1f公里" of the
epicenter, longitude, latitude and depth. -/
def notificationBody (e : Event) : String :=
  "地点:" ++ e.epicenter ++ ",东经:" ++ fmtFixed 6 e.longitude ++ "°,北纬:" ++
    fmtFixed 6 e.latitude ++ "°,地震深度:" ++ fmtFixed 1 e.depth ++ "公里"

/-- The sink URL built in the notification function of cmd/main.go:
Sprintf "https://api.day.app/%s/%s/%s" of the key, title and body,
with no URL encoding applied. -/
def notificationUrl (key : String) (e : Event) : String :=
  "https://api.day.app/" ++ key ++ "/" ++ notificationTitle e ++ "/" ++ notificationBody e

/-- A character allowed raw in a URL path segment by RFC 3986:
pchar is unreserved / sub-delims / ":" / "@", plus "%" as the
opening of a percent-encoded triple. -/
def pcharSafe (c : Char) : Bool :=
  c.isAlphanum || c ∈ ['-', '.', '_', '~', '!', '$', '&', '\'', '(', ')', '*', '+',
    ',', ';', '=', ':', '@', '%']

/-- A string is a URL-path-safe encoding when every character may
appear raw in a path segment. -/
def pathSegmentSafe (s : String) : Bool :=
  s.data.all pcharSafe

/-- The ways the dispatch closure fn in the notification function of
cmd/main.go can fail: timezone resolution (time.LoadLocation),
request construction, transport, body read. -/
inductive NotifyError where
  | tzError
  | requestError
  | transportError
  | readError
deriving DecidableEq, Repr

/-- The notifier loop of cmd/main.go run over the finite sequence of
events received on the channel, with dispatch standing for the fn
closure (the HTTP GET to the sink).  Each received event gets
exactly one dispatch attempt; an error is logged and the loop goes
on to the next event. -/
def notifierRun (dispatch : Event → Except NotifyError String) :
    List Event → List (Event × Except NotifyError String)
  | [] => []
  | e :: rest => (e, dispatch e) :: notifierRun dispatch rest

/-- Outcome of the startup checks at the top of main in
cmd/main.go. -/
inductive StartupResult where
  | fatalConfig
  | started
deriving DecidableEq, Repr

/-- The startup check of main in cmd/main.go: panic when the key
flag is empty, otherwise proceed to start the notification and loop
goroutines. -/
def mainStartup (key : String) : StartupResult :=
  if key = "" then .fatalConfig else .started

/-- A concrete event used by witnesses: start time 999000 ms after
the epoch. -/
def wEvent : Event := ⟨1, 2, 30, 102, 10, "X", 999000, 999100, 5, 0, 3⟩

/-- A concrete one-event response used by witnesses. -/
def wResp : Response := ⟨0, "success", [wEvent]⟩

/-- A concrete empty response used by witnesses. -/
def wEmptyResp : Response := ⟨0, "success", []⟩

/-- A concrete always-failing dispatch function used by witnesses. -/
def wDispatch : Event → Except NotifyError String := fun _ => .error .transportError

/-- C1: for a successful fetch whose response has a non-empty event
list and whose first event's startAt is within 30 minutes of the
current wall-clock time, the tick emits exactly the first event and
the cursor is updated to that event's startAt. -/
theorem tick_fresh_first_event_emitted (now lastTs : Int) (resp : Response)
    (e : Event) (rest : List Event) (hd : resp.data = e :: rest)
    (h : |now - e.startAt| ≤ staleThresholdMs) :
    tick now lastTs (.ok resp) = (e.startAt, some e) := by
  have h2 : now - e.startAt ≤ staleThresholdMs := (abs_le.mp h).2
  simp [tick, hd, h2]

/-- Witness for C1 at a concrete fresh event. -/
theorem tick_fresh_first_event_emitted_witness :
    tick 1000000 0 (.ok wResp) = (wEvent.startAt, some wEvent) :=
  tick_fresh_first_event_emitted 1000000 0 wResp wEvent [] rfl (by decide)

/-- C2: for a successful fetch whose response has a non-empty event
list and whose first event's startAt is more than 30 minutes before
the current wall-clock time, the cursor is still updated to that
startAt but no event is emitted. -/
theorem tick_stale_first_event_rejected (now lastTs : Int) (resp : Response)
    (e : Event) (rest : List Event) (hd : resp.data = e :: rest)
    (h : staleThresholdMs < now - e.startAt) :
    tick now lastTs (.ok resp) = (e.startAt, none) := by
  simp [tick, hd, not_le.mpr h]

/-- Witness for C2 at a concrete stale event. -/
theorem tick_stale_first_event_rejected_witness :
    tick 2800001 0 (.ok wResp) = (wEvent.startAt, none) :=
  tick_stale_first_event_rejected 2800001 0 wResp wEvent [] rfl (by decide)

/-- C3: for a successful fetch whose response contains zero events,
the cursor keeps its previous value and no event is emitted. -/
theorem tick_empty_response_skipped (now lastTs : Int) (resp : Response)
    (hd : resp.data = []) :
    tick now lastTs (.ok resp) = (lastTs, none) := by
  simp [tick, hd]

/-- Witness for C3 at a concrete empty response. -/
theorem tick_empty_response_skipped_witness :
    tick 1000000 42 (.ok wEmptyResp) = (42, none) :=
  tick_empty_response_skipped 1000000 42 wEmptyResp rfl

/-- C4: when the fetch fails, the cursor keeps its previous value,
no event is emitted, and the loop continues with the remaining
schedule exactly as if the failed tick had not happened. -/
theorem tick_fetch_error_skipped (now lastTs : Int) (err : FetchError)
    (rest : List (Int × Except FetchError Response)) :
    tick now lastTs (.error err) = (lastTs, none) ∧
    runLoop lastTs ((now, .error err) :: rest) = runLoop lastTs rest := by
  constructor
  · simp [tick]
  · simp [runLoop, tick]

/-- C5 counterexample: a feed response whose first event's startAt
is below the current cursor makes the cursor update decrease it
(cursor 5000, response head startAt 3000, new cursor 3000). -/
theorem cursor_update_can_regress :
    (tick 6000 5000 (.ok ⟨0, "success", [⟨1, 0, 0, 0, 0, "A", 3000, 0, 5, 0, 0⟩]⟩)).1
      < 5000 := by
  decide

/-- C5 amended: each cursor update is non-decreasing provided every
non-empty successful response's first event's startAt is at least
the current cursor, as when the feed honors the start_at query
parameter; the code itself assigns the first event's startAt
unconditionally. -/
theorem tick_cursor_mono_of_feed_honors_cursor (now lastTs : Int)
    (f : Except FetchError Response)
    (h : ∀ resp e rest, f = .ok resp → resp.data = e :: rest → lastTs ≤ e.startAt) :
    lastTs ≤ (tick now lastTs f).1 := by
  match f with
  | .error _ => simp [tick]
  | .ok resp =>
    match hd : resp.data with
    | [] => simp [tick, hd]
    | e :: rest =>
      have := h resp e rest rfl hd
      simp only [tick, hd]
      split <;> simpa

/-- Witness for the amended C5 at a concrete in-order response. -/
theorem tick_cursor_mono_of_feed_honors_cursor_witness :
    (1000 : Int) ≤ (tick 1000000 1000 (.ok wResp)).1 :=
  tick_cursor_mono_of_feed_honors_cursor 1000000 1000 (.ok wResp)
    (by
      intro resp e rest hf hd
      cases hf
      simp [wResp] at hd
      cases hd.1
      decide)

/-- C6: the notification URL contains the event's start time
rendered in Asia/Shanghai as YYYY-MM-DD HH:MM:SS, the magnitude to
one decimal place, the epicenter name, the longitude, the latitude,
and the depth to one decimal place, each as a contiguous substring. -/
theorem notificationUrl_contains_required_fields (key : String) (e : Event) :
    (∃ s t, (notificationUrl key e).data = s ++ (shanghaiDateTime e.startAt).data ++ t) ∧
    (∃ s t, (notificationUrl key e).data = s ++ (fmtFixed 1 e.magnitude).data ++ t) ∧
    (∃ s t, (notificationUrl key e).data = s ++ e.epicenter.data ++ t) ∧
    (∃ s t, (notificationUrl key e).data = s ++ (fmtFixed 6 e.longitude).data ++ t) ∧
    (∃ s t, (notificationUrl key e).data = s ++ (fmtFixed 6 e.latitude).data ++ t) ∧
    (∃ s t, (notificationUrl key e).data = s ++ (fmtFixed 1 e.depth).data ++ t) := by
  refine ⟨⟨("https://api.day.app/" ++ key ++ "/").data,
      (" 有" ++ fmtFixed 1 e.magnitude ++ "级地震发生了" ++ "/" ++ notificationBody e).data, ?_⟩,
    ⟨("https://api.day.app/" ++ key ++ "/" ++ shanghaiDateTime e.startAt ++ " 有").data,
      ("级地震发生了" ++ "/" ++ notificationBody e).data, ?_⟩,
    ⟨("https://api.day.app/" ++ key ++ "/" ++ notificationTitle e ++ "/" ++ "地点:").data,
      (",东经:" ++ fmtFixed 6 e.longitude ++ "°,北纬:" ++ fmtFixed 6 e.latitude ++
        "°,地震深度:" ++ fmtFixed 1 e.depth ++ "公里").data, ?_⟩,
    ⟨("https://api.day.app/" ++ key ++ "/" ++ notificationTitle e ++ "/" ++ "地点:" ++
        e.epicenter ++ ",东经:").data,
      ("°,北纬:" ++ fmtFixed 6 e.latitude ++ "°,地震深度:" ++ fmtFixed 1 e.depth ++ "公里").data, ?_⟩,
    ⟨("https://api.day.app/" ++ key ++ "/" ++ notificationTitle e ++ "/" ++ "地点:" ++
        e.epicenter ++ ",东经:" ++ fmtFixed 6 e.longitude ++ "°,北纬:").data,
      ("°,地震深度:" ++ fmtFixed 1 e.depth ++ "公里").data, ?_⟩,
    ⟨("https://api.day.app/" ++ key ++ "/" ++ notificationTitle e ++ "/" ++ "地点:" ++
        e.epicenter ++ ",东经:" ++ fmtFixed 6 e.longitude ++ "°,北纬:" ++
        fmtFixed 6 e.latitude ++ "°,地震深度:").data,
      ("公里").data, ?_⟩⟩ <;>
    simp [notificationUrl, notificationTitle, notificationBody, String.data_append,
      List.append_assoc]

/-- C7: a dispatch failure for one event is recorded and the
notifier proceeds to attempt the next received event; the failed
event is not retried. -/
theorem notifier_failure_isolated (d : Event → Except NotifyError String)
    (e1 e2 : Event) (rest : List Event) (err : NotifyError)
    (h : d e1 = .error err) :
    notifierRun d (e1 :: e2 :: rest) =
      (e1, .error err) :: (e2, d e2) :: notifierRun d rest := by
  simp [notifierRun, h]

/-- Witness for C7: with an always-failing dispatch, the event after
a failed one is still attempted. -/
theorem notifier_failure_isolated_witness :
    notifierRun wDispatch [wEvent, wEvent] =
      (wEvent, .error .transportError) :: (wEvent, wDispatch wEvent) ::
        notifierRun wDispatch [] :=
  notifier_failure_isolated wDispatch wEvent wEvent [] .transportError rfl

/-- C8 counterexample: at a concrete event the title and body path
segments are not URL-path-safe encodings — they carry the raw CJK
characters of the format strings. -/
theorem notification_segments_unsafe_at_concrete_event :
    pathSegmentSafe (notificationTitle wEvent) = false ∧
    pathSegmentSafe (notificationBody wEvent) = false := by
  decide

/-- C8 amended: the title and body are interpolated into the sink
URL verbatim with no URL encoding, so for every event both path
segments contain characters outside the path-safe set (the fixed
CJK text of the format strings) and are never URL-path-safe
encodings. -/
theorem notification_segments_never_pathsafe (e : Event) :
    pathSegmentSafe (notificationTitle e) = false ∧
    pathSegmentSafe (notificationBody e) = false := by
  constructor
  · refine List.all_eq_false.mpr ⟨'有', ?_, by decide⟩
    simp [notificationTitle, String.data_append]
  · refine List.all_eq_false.mpr ⟨'地', ?_, by decide⟩
    simp [notificationBody, String.data_append]

/-- C9: startup aborts with a fatal configuration error exactly when
the push key is empty, and proceeds to start the poller and notifier
goroutines exactly when it is non-empty. -/
theorem mainStartup_requires_key (key : String) :
    (mainStartup key = .fatalConfig ↔ key = "") ∧
    (mainStartup key = .started ↔ key ≠ "") := by
  by_cases h : key = "" <;> simp [mainStartup, h]

/-- C10: the poller performs no duplicate check against the cursor:
when the first event's startAt equals the current cursor and the
event is fresh at two consecutive ticks returning the same response,
it is emitted on both ticks. -/
theorem tick_no_dedup_duplicate_emission (now1 now2 lastTs : Int) (resp : Response)
    (e : Event) (rest : List Event) (hd : resp.data = e :: rest)
    (_hdup : e.startAt = lastTs)
    (h1 : now1 - e.startAt ≤ staleThresholdMs)
    (h2 : now2 - e.startAt ≤ staleThresholdMs) :
    runLoop lastTs [(now1, .ok resp), (now2, .ok resp)] = (e.startAt, [e, e]) := by
  simp [runLoop, tick, hd, h1, h2]

/-- Witness for C10: the same concrete event, already equal to the
cursor, is emitted again on both ticks. -/
theorem tick_no_dedup_duplicate_emission_witness :
    runLoop 999000 [(1000000, .ok wResp), (1000000, .ok wResp)] =
      (wEvent.startAt, [wEvent, wEvent]) :=
  tick_no_dedup_duplicate_emission 1000000 1000000 999000 wResp wEvent [] rfl rfl
    (by decide) (by decide)

end EarthquakeAlert
